import Mathlib

/-!
Verification of the worklog-manager core: the session state machine
(`core/worklog_manager.py`), the time accounting engine
(`core/time_calculator.py`), the action history / undo log
(`core/action_history.py`) and the database row operations used by them
(`data/database.py`).

Embedding conventions:
* ISO timestamp strings are embedded as `Int` seconds; Python's
  `parse_time` / `total_seconds()` round-trip is then plain subtraction.
* SQLite rows become Lean structures; `UPDATE ... WHERE id = ?` becomes a
  `List.map` guarded on the id and `DELETE ... WHERE id = ?` a `List.filter`;
  `ORDER BY created_at` is insertion order of the row list.
* Python's `int(x)` on a whole-second float is the identity; `x // y` is
  `Int.fdiv`; `int(x / 60)` on a possibly negative number of seconds is
  truncation toward zero, `Int.tdiv`.
* `datetime.now()` is passed in explicitly as a parameter; autoincrement ids
  and the uuid tokens of `ActionSnapshot` are explicit counters starting at 1.
* Logging, the GUI timer thread and the `notes`/`revoke_timestamp` string
  bookkeeping are not modelled; no claim depends on them.
-/

namespace Worklog

/-- `WorklogState` enum from `data/models.py`. -/
inductive WorklogState where
  | not_started
  | working
  | on_break
  | day_ended
  deriving DecidableEq

/-- `ActionType` enum from `data/models.py`. -/
inductive ActionType where
  | start_day
  | end_day
  | stop
  | continue_work
  | revoke_start
  | revoke_end
  | revoke_stop
  | revoke_continue
  deriving DecidableEq

/-- `BreakType` enum from `data/models.py`. -/
inductive BreakType where
  | lunch
  | coffee
  | general
  deriving DecidableEq

/-- `ActionLog` dataclass / `action_log` row from `data/models.py`
(`timestamp` as seconds). -/
structure ActionLog where
  id : Nat := 0
  session_id : Nat := 0
  action_type : ActionType := ActionType.start_day
  timestamp : Int := 0
  break_type : Option BreakType := none
  revoked : Bool := false
  deriving DecidableEq

/-- `BreakPeriod` dataclass / `break_periods` row from `data/models.py`. -/
structure BreakPeriod where
  id : Nat := 0
  session_id : Nat := 0
  break_type : BreakType := BreakType.general
  start_time : Int := 0
  end_time : Option Int := none
  duration_minutes : Option Int := none
  deriving DecidableEq

/-- `TimeCalculation` dataclass from `data/models.py`. -/
structure TimeCalculation where
  total_work_seconds : Int := 0
  total_break_seconds : Int := 0
  productive_seconds : Int := 0
  overtime_seconds : Int := 0
  deficit_seconds : Int := 0
  remaining_seconds : Int := 0
  current_session_seconds : Int := 0
  work_norm_seconds : Int := 450 * 60
  total_work_minutes : Int := 0
  total_break_minutes : Int := 0
  productive_minutes : Int := 0
  overtime_minutes : Int := 0
  deficit_minutes : Int := 0
  remaining_minutes : Int := 0
  current_session_minutes : Int := 0
  is_overtime : Bool := false
  work_norm_minutes : Int := 450
  deriving DecidableEq

/-- `WorkSession` dataclass / `work_sessions` row from `data/models.py`
(the `date` key is fixed, "today", so it is not modelled). -/
structure WorkSession where
  id : Nat := 1
  start_time : Option Int := none
  end_time : Option Int := none
  total_work_minutes : Int := 0
  total_break_minutes : Int := 0
  productive_minutes : Int := 0
  overtime_minutes : Int := 0
  status : WorklogState := WorklogState.not_started
  deriving DecidableEq

/-- `ActionSnapshot` dataclass from `core/action_history.py`. The
`break_data` dict is flattened to the keys the revoke paths read
(`break_id`, `break_type`, `start_time`); `session_data_before/after`,
`notes` and `revoke_timestamp` are captured in the source but never read by
any code path under verification, so they are omitted. -/
structure ActionSnapshot where
  id : Nat := 0
  action_type : ActionType := ActionType.start_day
  timestamp : Int := 0
  state_before : WorklogState := WorklogState.not_started
  state_after : WorklogState := WorklogState.not_started
  break_id : Option Nat := none
  break_type : Option BreakType := none
  break_start : Option Int := none
  revoked : Bool := false
  deriving DecidableEq

namespace TimeCalculator

/-- One step of the scan in `TimeCalculator.calculate_work_time`
(`core/time_calculator.py` lines 86-100): the accumulator is the running
total together with the open-start marker (`current_start`). -/
def work_time_step (acc : Int × Option Int) (a : ActionLog) : Int × Option Int :=
  match a.action_type, acc with
  | ActionType.start_day, (total, _) => (total, some a.timestamp)
  | ActionType.stop, (total, some s) => (total + (a.timestamp - s), none)
  | ActionType.continue_work, (total, _) => (total, some a.timestamp)
  | ActionType.end_day, (total, some s) => (total + (a.timestamp - s), none)
  | _, acc => acc

/-- `TimeCalculator.calculate_work_time` (`core/time_calculator.py` lines
81-102): fold the scan over the action log, return the accumulated seconds. -/
def calculate_work_time (actions : List ActionLog) : Int :=
  (actions.foldl work_time_step (0, none)).1

/-- The reverse scan of `TimeCalculator.calculate_current_session_time`
(`core/time_calculator.py` lines 116-124): on the reversed action list, the
first `START_DAY`/`CONTINUE` yields its timestamp, the first
`STOP`/`END_DAY` ends the scan with no open session; other action types are
skipped. -/
def find_open_start : List ActionLog → Option Int
  | [] => none
  | a :: rest =>
    match a.action_type with
    | ActionType.start_day => some a.timestamp
    | ActionType.continue_work => some a.timestamp
    | ActionType.stop => none
    | ActionType.end_day => none
    | _ => find_open_start rest

/-- `TimeCalculator.calculate_current_session_time` (`core/time_calculator.py`
lines 104-131) with `datetime.now()` passed in as `now`. -/
def calculate_current_session_time (actions : List ActionLog) (now : Int) : Int :=
  match find_open_start actions.reverse with
  | some s => now - s
  | none => 0

/-- Seconds contributed by one `BreakPeriod` in
`TimeCalculator.calculate_break_time` (`core/time_calculator.py` lines
137-144): a closed period contributes `max 0 (end - start)`; an open period
with a stored duration contributes `max 0 (duration_minutes * 60)`. -/
def break_period_seconds (b : BreakPeriod) : Int :=
  match b.end_time with
  | some e => max 0 (e - b.start_time)
  | none =>
    match b.duration_minutes with
    | some d => max 0 (d * 60)
    | none => 0

/-- `TimeCalculator.calculate_break_time` (`core/time_calculator.py` lines
133-146). -/
def calculate_break_time (break_periods : List BreakPeriod) : Int :=
  break_periods.foldl (fun total b => total + break_period_seconds b) 0

/-- `TimeCalculator.calculate_all_times` (`core/time_calculator.py` lines
148-203), with `datetime.now()` as `now` and `WORK_NORM_MINUTES` as
`work_norm_minutes` (450 by default in the source). -/
def calculate_all_times (actions : List ActionLog) (break_periods : List BreakPeriod)
    (now : Int) (work_norm_minutes : Int) : TimeCalculation :=
  let total_work_seconds := calculate_work_time actions
  let total_break_seconds := calculate_break_time break_periods
  let current_session_seconds := calculate_current_session_time actions now
  let productive_seconds := total_work_seconds
  let work_norm_seconds := work_norm_minutes * 60
  let overtime_seconds :=
    if productive_seconds > work_norm_seconds then productive_seconds - work_norm_seconds else 0
  let deficit_seconds :=
    if productive_seconds > work_norm_seconds then 0 else work_norm_seconds - productive_seconds
  let remaining_seconds := deficit_seconds
  { total_work_seconds := total_work_seconds
    total_break_seconds := total_break_seconds
    productive_seconds := productive_seconds
    overtime_seconds := overtime_seconds
    deficit_seconds := deficit_seconds
    remaining_seconds := remaining_seconds
    current_session_seconds := current_session_seconds
    work_norm_seconds := work_norm_seconds
    total_work_minutes := total_work_seconds.fdiv 60
    total_break_minutes := total_break_seconds.fdiv 60
    productive_minutes := productive_seconds.fdiv 60
    overtime_minutes := overtime_seconds.fdiv 60
    deficit_minutes := deficit_seconds.fdiv 60
    remaining_minutes := remaining_seconds.fdiv 60
    current_session_minutes := current_session_seconds.fdiv 60
    is_overtime := overtime_seconds > 0
    work_norm_minutes := work_norm_minutes }

end TimeCalculator

namespace ActionHistory

/-- `ActionHistory.record_action` (`core/action_history.py` lines 42-82):
append the snapshot, then pop the oldest entry once the configured bound is
exceeded. -/
def record_action (actions : List ActionSnapshot) (max_history : Nat)
    (s : ActionSnapshot) : List ActionSnapshot :=
  let appended := actions ++ [s]
  if max_history < appended.length then appended.tail else appended

/-- `ActionHistory.get_revokable_actions` (`core/action_history.py` lines
84-91): all non-revoked entries, most recent first. -/
def get_revokable_actions (actions : List ActionSnapshot) : List ActionSnapshot :=
  (actions.filter (fun a => !a.revoked)).reverse

/-- `ActionHistory.get_action_by_id` (`core/action_history.py` lines
102-114): first snapshot with the id, in insertion order. -/
def get_action_by_id (actions : List ActionSnapshot) (aid : Nat) : Option ActionSnapshot :=
  actions.find? (fun a => a.id == aid)

/-- In-place mutation of the object returned by `get_action_by_id` in
`ActionHistory.revoke_action` (`core/action_history.py` line 135): the first
snapshot carrying the id gets its `revoked` flag set. -/
def mark_revoked_first : List ActionSnapshot → Nat → List ActionSnapshot
  | [], _ => []
  | a :: rest, aid =>
    if a.id == aid then { a with revoked := true } :: rest
    else a :: mark_revoked_first rest aid

/-- `ActionHistory.revoke_action` (`core/action_history.py` lines 116-141):
fails when the id is absent or the snapshot is already revoked, otherwise
flags it (the notes / revoke-timestamp bookkeeping carries no further
behaviour). -/
def revoke_action (actions : List ActionSnapshot) (aid : Nat) :
    Bool × List ActionSnapshot :=
  match get_action_by_id actions aid with
  | none => (false, actions)
  | some a =>
    if a.revoked then (false, actions)
    else (true, mark_revoked_first actions aid)

/-- The `enumerate` loop of `ActionHistory.can_revoke_action`
(`core/action_history.py` lines 161-166): walk the revokable list with its
index, and at the first id match return whether the index is below 5. -/
def revoke_window_check : List ActionSnapshot → Nat → Nat → Bool
  | [], _, _ => false
  | a :: rest, aid, i =>
    if a.id == aid then decide (i < 5)
    else revoke_window_check rest aid (i + 1)

/-- `ActionHistory.can_revoke_action` (`core/action_history.py` lines
143-166). -/
def can_revoke_action (actions : List ActionSnapshot) (aid : Nat) : Bool :=
  match get_action_by_id actions aid with
  | none => false
  | some a =>
    if a.revoked then false
    else revoke_window_check (get_revokable_actions actions) aid 0

end ActionHistory

namespace Database

/-- `Database.get_session_actions` (`data/database.py` lines 213-242):
`WHERE session_id = ? AND revoked = FALSE ORDER BY created_at`. -/
def get_session_actions (rows : List ActionLog) (sid : Nat) : List ActionLog :=
  rows.filter (fun a => a.session_id == sid && !a.revoked)

/-- `Database.get_session_breaks` (`data/database.py` lines 326-352):
`WHERE session_id = ? ORDER BY created_at`, no revoked filter. -/
def get_session_breaks (rows : List BreakPeriod) (sid : Nat) : List BreakPeriod :=
  rows.filter (fun b => b.session_id == sid)

/-- `Database.revoke_action` (`data/database.py` lines 354-366):
`UPDATE action_log SET revoked = TRUE WHERE id = ?`. -/
def revoke_action (rows : List ActionLog) (aid : Nat) : List ActionLog :=
  rows.map (fun a => if a.id == aid then { a with revoked := true } else a)

/-- `Database.end_break_period` (`data/database.py` lines 266-280):
`UPDATE break_periods SET end_time = ?, duration_minutes = ? WHERE id = ?`. -/
def end_break_period (rows : List BreakPeriod) (bid : Nat) (end_t : Int)
    (duration_minutes : Int) : List BreakPeriod :=
  rows.map (fun b =>
    if b.id == bid then { b with end_time := some end_t, duration_minutes := some duration_minutes }
    else b)

/-- `Database.delete_break_period` (`data/database.py` lines 282-302):
`DELETE FROM break_periods WHERE id = ?` (the returned rowcount flag is
ignored by the caller). -/
def delete_break_period (rows : List BreakPeriod) (bid : Nat) : List BreakPeriod :=
  rows.filter (fun b => !(b.id == bid))

/-- `Database.reopen_break_period` (`data/database.py` lines 304-324):
`UPDATE break_periods SET end_time = NULL, duration_minutes = NULL WHERE
id = ?`, returning whether a row was updated (rowcount > 0). -/
def reopen_break_period (rows : List BreakPeriod) (bid : Nat) :
    Bool × List BreakPeriod :=
  (rows.any (fun b => b.id == bid),
   rows.map (fun b =>
     if b.id == bid then { b with end_time := none, duration_minutes := none } else b))

end Database

/-- The mutable state of `WorklogManager` (`core/worklog_manager.py` lines
28-44) together with the single-session database it owns. `current_session`
is identified with the durable `work_sessions` row, since every mutation
path writes through `db.update_session` and re-reads via `refresh_session`.
`max_history` is `ActionHistory`'s bound (default 100) and
`work_norm_minutes` is `TimeCalculator.WORK_NORM_MINUTES` (default 450). -/
structure Manager where
  session : WorkSession := {}
  current_state : WorklogState := WorklogState.not_started
  current_break_id : Option Nat := none
  db_actions : List ActionLog := []
  db_breaks : List BreakPeriod := []
  history : List ActionSnapshot := []
  max_history : Nat := 100
  work_norm_minutes : Int := 450
  next_action_id : Nat := 1
  next_break_id : Nat := 1
  next_snapshot_id : Nat := 1
  deriving DecidableEq

namespace WorklogManager

/-- The break duration (in minutes) persisted by `WorklogManager.end_day` when
it closes the still-open break (`core/worklog_manager.py` line 332):
`int((end_time - start_time).total_seconds() / 60)`, i.e. truncation toward
zero with no clamping. -/
def end_day_break_duration_minutes (start_t end_t : Int) : Int :=
  (end_t - start_t).tdiv 60

/-- The break duration in seconds computed by `WorklogManager.continue_work`
(`core/worklog_manager.py` line 266): `max(0, int(...total_seconds()))`. -/
def continue_break_duration_seconds (start_t end_t : Int) : Int :=
  max 0 (end_t - start_t)

/-- The break duration in minutes persisted by `WorklogManager.continue_work`
(`core/worklog_manager.py` line 267): `max(0, int(duration_seconds / 60))`. -/
def continue_break_duration_minutes (start_t end_t : Int) : Int :=
  max 0 ((continue_break_duration_seconds start_t end_t).tdiv 60)

/-- `Database.log_action` as invoked by the manager (`data/database.py`
lines 185-211): insert an `action_log` row with the next rowid. -/
def log_action (m : Manager) (ty : ActionType) (t : Int)
    (bt : Option BreakType) : Manager :=
  { m with
    db_actions := m.db_actions ++
      [{ id := m.next_action_id, session_id := m.session.id, action_type := ty,
         timestamp := t, break_type := bt }],
    next_action_id := m.next_action_id + 1 }

/-- `WorklogManager._record_action_in_history` (`core/worklog_manager.py`
lines 615-653): append a full snapshot to the action history (the
session-data shallow copies it also captures are never read back). -/
def record_action_in_history (m : Manager) (ty : ActionType)
    (state_before state_after : WorklogState) (t : Int)
    (break_id : Option Nat) (break_type : Option BreakType)
    (break_start : Option Int) : Manager :=
  { m with
    history := ActionHistory.record_action m.history m.max_history
      { id := m.next_snapshot_id, action_type := ty, timestamp := t,
        state_before := state_before, state_after := state_after,
        break_id := break_id, break_type := break_type, break_start := break_start },
    next_snapshot_id := m.next_snapshot_id + 1 }

/-- `WorklogManager.get_current_calculations` (`core/worklog_manager.py`
lines 100-112). -/
def get_current_calculations (m : Manager) (now : Int) : TimeCalculation :=
  TimeCalculator.calculate_all_times
    (Database.get_session_actions m.db_actions m.session.id)
    (Database.get_session_breaks m.db_breaks m.session.id)
    now m.work_norm_minutes

/-- `WorklogManager.can_perform_action` (`core/worklog_manager.py` lines
428-444): the `valid_transitions` dict, as a function of the only state it
reads. -/
def can_perform_action (state : WorklogState) (ty : ActionType) : Bool :=
  match state with
  | WorklogState.not_started => ty == ActionType.start_day
  | WorklogState.working => ty == ActionType.stop || ty == ActionType.end_day
  | WorklogState.on_break => ty == ActionType.continue_work || ty == ActionType.end_day
  | WorklogState.day_ended => false

/-- `WorklogManager.start_day` (`core/worklog_manager.py` lines 114-163). -/
def start_day (m : Manager) (t : Int) : Bool × Manager :=
  if m.current_state != WorklogState.not_started then (false, m)
  else
    let state_before := m.current_state
    let m1 := log_action m ActionType.start_day t none
    let m2 := { m1 with session :=
      { m1.session with start_time := some t, status := WorklogState.working } }
    let m3 := { m2 with current_state := WorklogState.working }
    (true, record_action_in_history m3 ActionType.start_day state_before
      m3.current_state t none none none)

/-- `WorklogManager.stop_work` (`core/worklog_manager.py` lines 165-223). -/
def stop_work (m : Manager) (t : Int) (bt : BreakType) : Bool × Manager :=
  if m.current_state != WorklogState.working then (false, m)
  else
    let state_before := m.current_state
    let m1 := log_action m ActionType.stop t (some bt)
    let bid := m1.next_break_id
    let m2 := { m1 with
      db_breaks := m1.db_breaks ++
        [({ id := bid, session_id := m1.session.id, break_type := bt,
            start_time := t } : BreakPeriod)],
      next_break_id := bid + 1,
      current_break_id := some bid }
    let m3 := { m2 with current_state := WorklogState.on_break }
    (true, record_action_in_history m3 ActionType.stop state_before
      m3.current_state t (some bid) (some bt) (some t))

/-- `WorklogManager.continue_work` (`core/worklog_manager.py` lines 225-300):
close the current break (duration clamped at zero), log the action, move to
Working; the snapshot carries the break data only when the break row was
found. -/
def continue_work (m : Manager) (t : Int) : Bool × Manager :=
  if m.current_state != WorklogState.on_break then (false, m)
  else
    let state_before := m.current_state
    match m.current_break_id with
    | some bid =>
      let current_break :=
        (Database.get_session_breaks m.db_breaks m.session.id).find? (fun b => b.id == bid)
      let duration_minutes :=
        match current_break with
        | some cb => continue_break_duration_minutes cb.start_time t
        | none => 0
      let m1 := { m with
        db_breaks := Database.end_break_period m.db_breaks bid t duration_minutes,
        current_break_id := none }
      let m2 := log_action m1 ActionType.continue_work t none
      let m3 := { m2 with current_state := WorklogState.working }
      match current_break with
      | some cb =>
        (true, record_action_in_history m3 ActionType.continue_work state_before
          m3.current_state t (some bid) (some cb.break_type) (some cb.start_time))
      | none =>
        (true, record_action_in_history m3 ActionType.continue_work state_before
          m3.current_state t none none none)
    | none =>
      let m2 := log_action m ActionType.continue_work t none
      let m3 := { m2 with current_state := WorklogState.working }
      (true, record_action_in_history m3 ActionType.continue_work state_before
        m3.current_state t none none none)

/-- `WorklogManager.end_day` (`core/worklog_manager.py` lines 302-375): close
any open break (duration truncated, not clamped), log the action, persist the
final calculations into the session row, move to DayEnded. -/
def end_day (m : Manager) (t : Int) : Bool × Manager :=
  if m.current_state != WorklogState.working && m.current_state != WorklogState.on_break then
    (false, m)
  else
    let state_before := m.current_state
    let m1 :=
      if m.current_state == WorklogState.on_break then
        match m.current_break_id with
        | some bid =>
          let current_break :=
            (Database.get_session_breaks m.db_breaks m.session.id).find? (fun b => b.id == bid)
          let m' :=
            match current_break with
            | some cb =>
              { m with db_breaks := (Database.end_break_period m.db_breaks bid t
                  (end_day_break_duration_minutes cb.start_time t)) }
            | none => m
          { m' with current_break_id := none }
        | none => m
      else m
    let m2 := log_action m1 ActionType.end_day t none
    let calculations := get_current_calculations m2 t
    let m3 := { m2 with session := { m2.session with
        end_time := some t,
        total_work_minutes := calculations.total_work_minutes,
        total_break_minutes := calculations.total_break_minutes,
        productive_minutes := calculations.productive_minutes,
        overtime_minutes := calculations.overtime_minutes,
        status := WorklogState.day_ended } }
    let m4 := { m3 with current_state := WorklogState.day_ended }
    (true, record_action_in_history m4 ActionType.end_day state_before
      m4.current_state t none none none)

/-- `WorklogManager._restore_state_from_action` (`core/worklog_manager.py`
lines 527-613). For EndDay the restored state is read from index 1 of
`get_revokable_actions()` when that list has more than one entry — which is
exactly when index 1 exists — defaulting to Working. -/
def restore_state_from_action (m : Manager) (a : ActionSnapshot) : Manager :=
  let m0 := { m with current_state := a.state_before }
  match a.action_type with
  | ActionType.start_day =>
    { m0 with session :=
      { m0.session with start_time := none, status := WorklogState.not_started } }
  | ActionType.end_day =>
    let actions := ActionHistory.get_revokable_actions m0.history
    let restore_state :=
      match actions.get? 1 with
      | some previous_action => previous_action.state_after
      | none => WorklogState.working
    { m0 with
      current_state := restore_state,
      session := { m0.session with end_time := none, status := restore_state } }
  | ActionType.stop =>
    let m1 :=
      match a.break_id with
      | some bid => { m0 with db_breaks := Database.delete_break_period m0.db_breaks bid }
      | none => m0
    let m2 := { m1 with current_break_id := none }
    { m2 with session := { m2.session with status := m2.current_state } }
  | ActionType.continue_work =>
    let m1 :=
      match a.break_id with
      | some bid =>
        let reopened := (Database.reopen_break_period m0.db_breaks bid).1
        let m' := { m0 with db_breaks := (Database.reopen_break_period m0.db_breaks bid).2 }
        if reopened then { m' with current_break_id := some bid } else m'
      | none => m0
    { m1 with session := { m1.session with status := m1.current_state } }
  | _ => m0

/-- `WorklogManager.revoke_action` (`core/worklog_manager.py` lines 477-525):
look up the snapshot, check eligibility, mark the history entry revoked, then
best-effort flag the first matching `action_log` row (same type, timestamps
within 5 seconds), then restore state. -/
def revoke_action (m : Manager) (aid : Nat) : Bool × Manager :=
  match ActionHistory.get_action_by_id m.history aid with
  | none => (false, m)
  | some action =>
    if !(ActionHistory.can_revoke_action m.history aid) then (false, m)
    else
      let m1 := { m with history := (ActionHistory.revoke_action m.history aid).2 }
      let db_actions := Database.get_session_actions m1.db_actions m1.session.id
      let m2 :=
        match db_actions.find? (fun d =>
            d.action_type == action.action_type &&
            decide ((d.timestamp - action.timestamp).natAbs < 5)) with
        | some d => { m1 with db_actions := Database.revoke_action m1.db_actions d.id }
        | none => m1
      (true, restore_state_from_action m2 action)

/-- `WorklogManager.revoke_action` with a `PersistenceFailure` injected at the
`db.update_session` write inside the EndDay branch of
`_restore_state_from_action` (`core/worklog_manager.py` line 561): the
exception propagates to the `except` handler at line 523, which returns
`False`, retaining every mutation already performed — the history entry and
the `action_log` row were flagged revoked at lines 503-515, the in-memory
state was reassigned, and the session row was never restored. -/
def revoke_action_end_day_store_failure (m : Manager) (aid : Nat) : Bool × Manager :=
  match ActionHistory.get_action_by_id m.history aid with
  | none => (false, m)
  | some action =>
    if !(ActionHistory.can_revoke_action m.history aid) then (false, m)
    else
      let m1 := { m with history := (ActionHistory.revoke_action m.history aid).2 }
      let db_actions := Database.get_session_actions m1.db_actions m1.session.id
      let m2 :=
        match db_actions.find? (fun d =>
            d.action_type == action.action_type &&
            decide ((d.timestamp - action.timestamp).natAbs < 5)) with
        | some d => { m1 with db_actions := Database.revoke_action m1.db_actions d.id }
        | none => m1
      match action.action_type with
      | ActionType.end_day =>
        let m3 := { m2 with current_state := action.state_before }
        let actions := ActionHistory.get_revokable_actions m3.history
        let restore_state :=
          match actions.get? 1 with
          | some previous_action => previous_action.state_after
          | none => WorklogState.working
        (false, { m3 with current_state := restore_state })
      | _ => (true, restore_state_from_action m2 action)

end WorklogManager

/-- The four user intents dispatched to the manager's transition operations
(§6 of the spec: `start_day`, `stop(break_type)`, `continue_work`,
`end_day`). -/
inductive UserAction where
  | start_day
  | stop (bt : BreakType)
  | continue_work
  | end_day
  deriving DecidableEq

/-- The `ActionType` a user intent logs as. -/
def UserAction.to_action_type : UserAction → ActionType
  | UserAction.start_day => ActionType.start_day
  | UserAction.stop _ => ActionType.stop
  | UserAction.continue_work => ActionType.continue_work
  | UserAction.end_day => ActionType.end_day

namespace WorklogManager

/-- Dispatch a user intent to the corresponding transition operation. -/
def apply_action (m : Manager) (ua : UserAction) (t : Int) : Bool × Manager :=
  match ua with
  | UserAction.start_day => start_day m t
  | UserAction.stop bt => stop_work m t bt
  | UserAction.continue_work => continue_work m t
  | UserAction.end_day => end_day m t

/-- The state `_load_todays_session` leaves a fresh day in
(`core/worklog_manager.py` lines 46-64): a new NotStarted session, empty
logs, empty history. -/
def initial_manager : Manager := {}

/-- Replay a sequence of user intents from the fresh-day state. -/
def run_actions (seq : List (UserAction × Int)) : Manager :=
  seq.foldl (fun m p => (apply_action m p.1 p.2).2) initial_manager

end WorklogManager

/-- The legal-transition table of spec §4.1, stated from the spec's words:
StartDay from NotStarted to Working, Stop from Working to OnBreak, Continue
from OnBreak to Working, EndDay from Working or OnBreak to DayEnded. -/
def spec_legal_transitions (s : WorklogState) (ua : UserAction) : Option WorklogState :=
  match s, ua with
  | WorklogState.not_started, UserAction.start_day => some WorklogState.working
  | WorklogState.working, UserAction.stop _ => some WorklogState.on_break
  | WorklogState.on_break, UserAction.continue_work => some WorklogState.working
  | WorklogState.working, UserAction.end_day => some WorklogState.day_ended
  | WorklogState.on_break, UserAction.end_day => some WorklogState.day_ended
  | _, _ => none

/-- The table-legal (state, action-type) pairs of spec §4.1, stated from the
spec's words, over the full `ActionType` enum. -/
def spec_table_legal (s : WorklogState) (ty : ActionType) : Bool :=
  match s, ty with
  | WorklogState.not_started, ActionType.start_day => true
  | WorklogState.working, ActionType.stop => true
  | WorklogState.on_break, ActionType.continue_work => true
  | WorklogState.working, ActionType.end_day => true
  | WorklogState.on_break, ActionType.end_day => true
  | _, _ => false

/-- Spec-side predicate for claim C4, following the spec's words in §4.2:
overtime/deficit/remaining are derived from productive versus the norm, every
minute field is the floor division of its seconds field by 60, and
`is_overtime` holds exactly when `overtime_seconds` is positive. -/
abbrev spec_derived_metrics (c : TimeCalculation) : Prop :=
  (c.work_norm_seconds < c.productive_seconds →
    c.overtime_seconds = c.productive_seconds - c.work_norm_seconds ∧
    c.deficit_seconds = 0 ∧ c.remaining_seconds = 0) ∧
  (c.productive_seconds ≤ c.work_norm_seconds →
    c.overtime_seconds = 0 ∧
    c.deficit_seconds = c.work_norm_seconds - c.productive_seconds ∧
    c.remaining_seconds = c.work_norm_seconds - c.productive_seconds) ∧
  c.total_work_minutes = c.total_work_seconds.fdiv 60 ∧
  c.total_break_minutes = c.total_break_seconds.fdiv 60 ∧
  c.productive_minutes = c.productive_seconds.fdiv 60 ∧
  c.overtime_minutes = c.overtime_seconds.fdiv 60 ∧
  c.deficit_minutes = c.deficit_seconds.fdiv 60 ∧
  c.remaining_minutes = c.remaining_seconds.fdiv 60 ∧
  c.current_session_minutes = c.current_session_seconds.fdiv 60 ∧
  c.work_norm_minutes = c.work_norm_seconds.fdiv 60 ∧
  (c.is_overtime = true ↔ 0 < c.overtime_seconds)

/-- A full worked day: StartDay@0, Stop(coffee)@100, Continue@200,
EndDay@300. Used as the concrete scenario for the revoke claims. -/
def demo_day_seq : List (UserAction × Int) :=
  [(UserAction.start_day, 0), (UserAction.stop BreakType.coffee, 100),
   (UserAction.continue_work, 200), (UserAction.end_day, 300)]

/-- A non-revoked snapshot with a given id, for concrete history inputs. -/
def demo_snap (i : Nat) : ActionSnapshot :=
  { id := i, action_type := ActionType.stop, timestamp := Int.ofNat i,
    state_before := WorklogState.working, state_after := WorklogState.on_break }

/-- Six non-revoked snapshots, ids 1..6 in insertion order; id 1 sits at
index 5 of the most-recent-first revokable list. -/
def demo_hist6 : List ActionSnapshot :=
  [demo_snap 1, demo_snap 2, demo_snap 3, demo_snap 4, demo_snap 5, demo_snap 6]

/-- The manager after StartDay@0, Stop(coffee)@100: on break number 1. -/
def demo_after_stop : Manager :=
  WorklogManager.run_actions
    [(UserAction.start_day, 0), (UserAction.stop BreakType.coffee, 100)]

/-- The Stop snapshot recorded by `demo_after_stop` (history id 2,
capturing break id 1). -/
def demo_stop_snapshot : ActionSnapshot :=
  { id := 2, action_type := ActionType.stop, timestamp := 100,
    state_before := WorklogState.working, state_after := WorklogState.on_break,
    break_id := some 1, break_type := some BreakType.coffee, break_start := some 100 }

/-- The manager after StartDay@0, Stop(coffee)@100, Continue@200. -/
def demo_after_continue : Manager :=
  WorklogManager.run_actions
    [(UserAction.start_day, 0), (UserAction.stop BreakType.coffee, 100),
     (UserAction.continue_work, 200)]

/-- The Continue snapshot recorded by `demo_after_continue` (history id 3,
closing break id 1). -/
def demo_continue_snapshot : ActionSnapshot :=
  { id := 3, action_type := ActionType.continue_work, timestamp := 200,
    state_before := WorklogState.on_break, state_after := WorklogState.working,
    break_id := some 1, break_type := some BreakType.coffee, break_start := some 100 }

/-- Replay of repeated `ActionHistory.record_action` calls starting from an
empty history, as performed by successive manager transitions. -/
def record_all (max_history : Nat) (l : List ActionSnapshot) : List ActionSnapshot :=
  l.foldl (fun acc s => ActionHistory.record_action acc max_history s) []

end Worklog

namespace Worklog

theorem break_period_seconds_nonneg (b : BreakPeriod) :
    0 ≤ TimeCalculator.break_period_seconds b := by
  unfold TimeCalculator.break_period_seconds
  cases b.end_time <;> [skip; exact le_max_left 0 _]
  cases b.duration_minutes <;> simp [le_max_left]

theorem calculate_break_time_go_nonneg (bps : List BreakPeriod) (acc : Int) (h : 0 ≤ acc) :
    0 ≤ bps.foldl (fun total b => total + TimeCalculator.break_period_seconds b) acc := by
  induction bps generalizing acc with
  | nil => exact h
  | cons b rest ih =>
    exact ih _ (add_nonneg h (break_period_seconds_nonneg b))

theorem calculate_break_time_nonneg (bps : List BreakPeriod) :
    0 ≤ TimeCalculator.calculate_break_time bps :=
  calculate_break_time_go_nonneg bps 0 le_rfl

theorem apply_action_step_props (m : Manager) (a : UserAction) (t : Int) :
    ((WorklogManager.apply_action m a t).1 = true ↔
      (spec_legal_transitions m.current_state a).isSome = true) ∧
    (∀ s, spec_legal_transitions m.current_state a = some s →
      (WorklogManager.apply_action m a t).2.current_state = s) ∧
    ((WorklogManager.apply_action m a t).1 = false →
      (WorklogManager.apply_action m a t).2 = m) := by
  cases a with
  | start_day =>
    cases hs : m.current_state <;>
      simp [WorklogManager.apply_action, WorklogManager.start_day,
        WorklogManager.record_action_in_history, WorklogManager.log_action,
        spec_legal_transitions, hs]
  | stop bt =>
    cases hs : m.current_state <;>
      simp [WorklogManager.apply_action, WorklogManager.stop_work,
        WorklogManager.record_action_in_history, WorklogManager.log_action,
        spec_legal_transitions, hs]
  | continue_work =>
    cases hs : m.current_state <;>
      simp only [WorklogManager.apply_action, WorklogManager.continue_work,
        WorklogManager.record_action_in_history, WorklogManager.log_action,
        spec_legal_transitions, hs] <;>
      [simp; simp; (cases hb : m.current_break_id <;> simp [hs, hb]); simp] <;>
      split <;> simp
  | end_day =>
    cases hs : m.current_state <;>
      simp [WorklogManager.apply_action, WorklogManager.end_day,
        WorklogManager.record_action_in_history, WorklogManager.log_action,
        spec_legal_transitions, hs]

/-- C1: along every sequence of actions from the initial NotStarted state,
an action succeeds exactly when the (state, action) pair is in the legal
transition table of §4.1, a successful action moves the current state to the
table's resulting state, a rejected action returns failure leaving the whole
manager (state, action log, break rows, history) unchanged, and
`can_perform_action` agrees with the table on every (state, action) pair. -/
theorem C1_transition_table :
    (∀ (seq : List (UserAction × Int)) (a : UserAction) (t : Int),
      ((WorklogManager.apply_action (WorklogManager.run_actions seq) a t).1 = true ↔
        (spec_legal_transitions (WorklogManager.run_actions seq).current_state a).isSome = true) ∧
      (∀ s, spec_legal_transitions (WorklogManager.run_actions seq).current_state a = some s →
        (WorklogManager.apply_action (WorklogManager.run_actions seq) a t).2.current_state = s) ∧
      ((WorklogManager.apply_action (WorklogManager.run_actions seq) a t).1 = false →
        (WorklogManager.apply_action (WorklogManager.run_actions seq) a t).2
          = WorklogManager.run_actions seq)) ∧
    (∀ (s : WorklogState) (ty : ActionType),
      WorklogManager.can_perform_action s ty = spec_table_legal s ty) := by
  constructor
  · intro seq a t
    exact apply_action_step_props (WorklogManager.run_actions seq) a t
  · intro s ty
    cases s <;> cases ty <;> rfl

/-- Witness for C1: from the fresh day, `continue_work` is rejected leaving
the manager unchanged, and `start_day` succeeds moving the state to Working. -/
theorem C1_transition_table_witness :
    (WorklogManager.apply_action (WorklogManager.run_actions []) UserAction.continue_work 0).2
      = WorklogManager.run_actions [] ∧
    (WorklogManager.apply_action (WorklogManager.run_actions [])
        UserAction.start_day 0).2.current_state = WorklogState.working :=
  ⟨(C1_transition_table.1 [] UserAction.continue_work 0).2.2 (by decide),
   (C1_transition_table.1 [] UserAction.start_day 0).2.1 WorklogState.working (by decide)⟩

/-- C2: for the action log `[StartDay@T0, Stop@T1, Continue@T2, EndDay@T3]`
with `T0 ≤ T1 ≤ T2 ≤ T3` and the break period opened at `T1` and closed at
`T2`, `calculate_work_time` returns `(T1 - T0) + (T3 - T2)` — the scan sums
the spans between each StartDay/Continue marker and the next Stop/EndDay, so
break time is excluded — and `calculate_break_time` returns `T2 - T1`. -/
theorem C2_round_trip (T0 T1 T2 T3 : Int) (bt : BreakType)
    (h01 : T0 ≤ T1) (h12 : T1 ≤ T2) (h23 : T2 ≤ T3) :
    TimeCalculator.calculate_work_time
      [{ action_type := ActionType.start_day, timestamp := T0 },
       { action_type := ActionType.stop, timestamp := T1, break_type := some bt },
       { action_type := ActionType.continue_work, timestamp := T2 },
       { action_type := ActionType.end_day, timestamp := T3 }] = (T1 - T0) + (T3 - T2) ∧
    TimeCalculator.calculate_break_time
      [{ break_type := bt, start_time := T1, end_time := some T2 }] = T2 - T1 := by
  constructor
  · simp [TimeCalculator.calculate_work_time, TimeCalculator.work_time_step, List.foldl]
  · simp [TimeCalculator.calculate_break_time, TimeCalculator.break_period_seconds, List.foldl]
    omega

/-- Witness for C2 at `T0 = 0, T1 = 100, T2 = 150, T3 = 250`. -/
theorem C2_round_trip_witness :
    TimeCalculator.calculate_work_time
      [{ action_type := ActionType.start_day, timestamp := 0 },
       { action_type := ActionType.stop, timestamp := 100, break_type := some BreakType.coffee },
       { action_type := ActionType.continue_work, timestamp := 150 },
       { action_type := ActionType.end_day, timestamp := 250 }] = (100 - 0) + (250 - 150) ∧
    TimeCalculator.calculate_break_time
      [{ break_type := BreakType.coffee, start_time := 100, end_time := some 150 }] = 150 - 100 :=
  C2_round_trip 0 100 150 250 BreakType.coffee (by decide) (by decide) (by decide)

/-- Counterexample to C3 as stated: the span `calculate_work_time` adds when
`EndDay` meets the open-start marker is not clamped, so a log whose EndDay
timestamp precedes its marker yields a negative total. -/
theorem C3_counterexample :
    TimeCalculator.calculate_work_time
      [{ action_type := ActionType.start_day, timestamp := 100 },
       { action_type := ActionType.end_day, timestamp := 40 }] < 0 := by decide

/-- C3 (amended): the spans the work-time scan adds are the raw signed
differences, so `total_work_seconds` is negative whenever the closing event's
timestamp precedes its marker; the break duration `end_day` persists is
truncated toward zero without clamping and is negative for skew of a minute
or more; by contrast `calculate_break_time` clamps each period at zero and
`continue_work` clamps the duration it persists at zero. -/
theorem C3_amended_no_clamp_in_work_scan :
    (∀ a b : Int, b < a →
      TimeCalculator.calculate_work_time
        [{ action_type := ActionType.start_day, timestamp := a },
         { action_type := ActionType.end_day, timestamp := b }] < 0) ∧
    (∀ s e k : Int, e - s = -(60 * k) →
      WorklogManager.end_day_break_duration_minutes s e = -k) ∧
    (∀ bps : List BreakPeriod, 0 ≤ TimeCalculator.calculate_break_time bps) ∧
    (∀ s e : Int, 0 ≤ WorklogManager.continue_break_duration_minutes s e) := by
  refine ⟨?_, ?_, calculate_break_time_nonneg, ?_⟩
  · intro a b h
    simp [TimeCalculator.calculate_work_time, TimeCalculator.work_time_step, List.foldl]
    omega
  · intro s e k h
    unfold WorklogManager.end_day_break_duration_minutes
    rw [h, Int.neg_tdiv, Int.mul_tdiv_cancel_left _ (by decide)]
  · intro s e
    exact le_max_left 0 _

/-- Witness for the amended C3: a day started at 100 and ended at 40 has
work total -60; a break opened at 60 and closed by `end_day` at 0 is
persisted with duration -1. -/
theorem C3_amended_witness :
    TimeCalculator.calculate_work_time
      [{ action_type := ActionType.start_day, timestamp := 100 },
       { action_type := ActionType.end_day, timestamp := 40 }] < 0 ∧
    WorklogManager.end_day_break_duration_minutes 60 0 = -1 :=
  ⟨C3_amended_no_clamp_in_work_scan.1 100 40 (by decide),
   C3_amended_no_clamp_in_work_scan.2.1 60 0 1 (by decide)⟩

/-- C4: for every action log and break list, `calculate_all_times` derives
overtime/deficit/remaining from productive time versus the work norm, floors
every minute field from its seconds field, and sets `is_overtime` exactly
when overtime is positive; with norm 450, 500 worked minutes yield
`overtime_minutes = 50`, `deficit_minutes = 0`, `is_overtime = true`, and 300
worked minutes yield `overtime_minutes = 0`, `remaining_minutes = 150`. -/
theorem C4_derived_metrics :
    (∀ (acts : List ActionLog) (bps : List BreakPeriod) (now norm : Int),
      spec_derived_metrics (TimeCalculator.calculate_all_times acts bps now norm)) ∧
    ((TimeCalculator.calculate_all_times
        [{ action_type := ActionType.start_day, timestamp := 0 },
         { action_type := ActionType.end_day, timestamp := 30000 }] [] 30000 450).overtime_minutes = 50 ∧
      (TimeCalculator.calculate_all_times
        [{ action_type := ActionType.start_day, timestamp := 0 },
         { action_type := ActionType.end_day, timestamp := 30000 }] [] 30000 450).deficit_minutes = 0 ∧
      (TimeCalculator.calculate_all_times
        [{ action_type := ActionType.start_day, timestamp := 0 },
         { action_type := ActionType.end_day, timestamp := 30000 }] [] 30000 450).is_overtime = true) ∧
    ((TimeCalculator.calculate_all_times
        [{ action_type := ActionType.start_day, timestamp := 0 },
         { action_type := ActionType.end_day, timestamp := 18000 }] [] 18000 450).overtime_minutes = 0 ∧
      (TimeCalculator.calculate_all_times
        [{ action_type := ActionType.start_day, timestamp := 0 },
         { action_type := ActionType.end_day, timestamp := 18000 }] [] 18000 450).remaining_minutes = 150) := by
  refine ⟨?_, by decide, by decide⟩
  intro acts bps now norm
  unfold TimeCalculator.calculate_all_times spec_derived_metrics
  by_cases h : norm * 60 < TimeCalculator.calculate_work_time acts <;>
    simp [h, Int.mul_fdiv_cancel, decide_eq_true_iff]

/-- C5 (code behaviour at the failing input): replaying
[StartDay@0, Stop@100, Continue@200, EndDay@300] and revoking the EndDay
snapshot (id 4) succeeds but restores OnBreak — the `state_after` of the
Stop — although the most recent still-valid action before the revoked
EndDay is the Continue, whose `state_after` is Working. The index-1 read in
`_restore_state_from_action` assumes the revoked EndDay still heads
`get_revokable_actions()`, but it was already filtered out. -/
theorem C5_end_day_revoke_behaviour :
    (WorklogManager.revoke_action (WorklogManager.run_actions demo_day_seq) 4).1 = true ∧
    (WorklogManager.revoke_action
        (WorklogManager.run_actions demo_day_seq) 4).2.current_state
      = WorklogState.on_break ∧
    ((ActionHistory.get_revokable_actions
        (WorklogManager.revoke_action
          (WorklogManager.run_actions demo_day_seq) 4).2.history).get? 0).map
      (fun a => a.state_after) = some WorklogState.working := by decide

/-- C6 (code behaviour): `revoke_action` flips the ledger flags before the
restore steps, so when the session write during the EndDay restore raises,
the operation returns failure with the ActionSnapshot already marked revoked
while the session row still carries its end_time — the half-revoked state the
claim rules out. -/
theorem C6_revoke_failure_half_revoked :
    (WorklogManager.revoke_action_end_day_store_failure
        (WorklogManager.run_actions demo_day_seq) 4).1 = false ∧
    ((ActionHistory.get_action_by_id
        (WorklogManager.revoke_action_end_day_store_failure
          (WorklogManager.run_actions demo_day_seq) 4).2.history 4).map
      (fun a => a.revoked)) = some true ∧
    (WorklogManager.revoke_action_end_day_store_failure
        (WorklogManager.run_actions demo_day_seq) 4).2.session.end_time = some 300 := by decide

/-- C7: restoring from a Stop snapshot deletes exactly the break period whose
id the snapshot captured (all rows with a different id are kept, in order),
clears the open-break pointer and restores Working; restoring from a Continue
snapshot reopens exactly that break period (end_time and duration cleared,
all rows with a different id unchanged), restores OnBreak and points the
open-break pointer at that id. -/
theorem C7_revoke_stop_continue_frame :
    (∀ (m : Manager) (a : ActionSnapshot) (bid : Nat),
      a.action_type = ActionType.stop → a.state_before = WorklogState.working →
      a.break_id = some bid →
      (WorklogManager.restore_state_from_action m a).current_state = WorklogState.working ∧
      (WorklogManager.restore_state_from_action m a).db_breaks
        = m.db_breaks.filter (fun b => !(b.id == bid)) ∧
      (WorklogManager.restore_state_from_action m a).current_break_id = none) ∧
    (∀ (m : Manager) (a : ActionSnapshot) (bid : Nat),
      a.action_type = ActionType.continue_work → a.state_before = WorklogState.on_break →
      a.break_id = some bid →
      (∃ b ∈ m.db_breaks, b.id = bid) →
      (WorklogManager.restore_state_from_action m a).current_state = WorklogState.on_break ∧
      (WorklogManager.restore_state_from_action m a).db_breaks
        = m.db_breaks.map (fun b =>
            if b.id == bid then { b with end_time := none, duration_minutes := none } else b) ∧
      (WorklogManager.restore_state_from_action m a).current_break_id = some bid) := by
  constructor
  · intro m a bid hty hsb hbid
    simp [WorklogManager.restore_state_from_action, hty, hsb, hbid,
      Database.delete_break_period]
  · intro m a bid hty hsb hbid hex
    have hre : m.db_breaks.any (fun b => b.id == bid) = true := by
      obtain ⟨b, hbmem, hbeq⟩ := hex
      exact List.any_eq_true.mpr ⟨b, hbmem, by simp [hbeq]⟩
    simp [WorklogManager.restore_state_from_action, hty, hsb, hbid,
      Database.reopen_break_period, hre]

/-- Witness for C7: revoking the Stop of `demo_after_stop` restores Working,
and revoking the Continue of `demo_after_continue` points the open-break
pointer back at break 1. -/
theorem C7_revoke_stop_continue_frame_witness :
    (WorklogManager.restore_state_from_action demo_after_stop demo_stop_snapshot).current_state
      = WorklogState.working ∧
    (WorklogManager.restore_state_from_action
        demo_after_continue demo_continue_snapshot).current_break_id = some 1 :=
  ⟨(C7_revoke_stop_continue_frame.1 demo_after_stop demo_stop_snapshot 1 rfl rfl rfl).1,
   (C7_revoke_stop_continue_frame.2 demo_after_continue demo_continue_snapshot 1 rfl rfl rfl
      (by decide)).2.2⟩

/-- Witness for C4 discharging both overtime-branch hypotheses at the two
scenario inputs. -/
theorem C4_derived_metrics_witness :
    (TimeCalculator.calculate_all_times
      [{ action_type := ActionType.start_day, timestamp := 0 },
       { action_type := ActionType.end_day, timestamp := 30000 }] [] 30000 450).overtime_seconds =
      (TimeCalculator.calculate_all_times
        [{ action_type := ActionType.start_day, timestamp := 0 },
         { action_type := ActionType.end_day, timestamp := 30000 }] [] 30000 450).productive_seconds -
      (TimeCalculator.calculate_all_times
        [{ action_type := ActionType.start_day, timestamp := 0 },
         { action_type := ActionType.end_day, timestamp := 30000 }] [] 30000 450).work_norm_seconds ∧
    (TimeCalculator.calculate_all_times
      [{ action_type := ActionType.start_day, timestamp := 0 },
       { action_type := ActionType.end_day, timestamp := 18000 }] [] 18000 450).overtime_seconds = 0 :=
  ⟨((C4_derived_metrics.1
      [{ action_type := ActionType.start_day, timestamp := 0 },
       { action_type := ActionType.end_day, timestamp := 30000 }] [] 30000 450).1 (by decide)).1,
   ((C4_derived_metrics.1
      [{ action_type := ActionType.start_day, timestamp := 0 },
       { action_type := ActionType.end_day, timestamp := 18000 }] [] 18000 450).2.1 (by decide)).1⟩

theorem find_id_spec (hist : List ActionSnapshot) (aid : Nat) (a : ActionSnapshot)
    (h : hist.find? (fun x => x.id == aid) = some a) : a.id = aid ∧ a ∈ hist :=
  ⟨by simpa using List.find?_some h, List.mem_of_find?_eq_some h⟩

theorem revoke_window_check_spec (a : ActionSnapshot) (aid : Nat) :
    ∀ (l : List ActionSnapshot) (i : Nat), a ∈ l → a.id = aid →
      (l.map (fun x => x.id)).Nodup →
      ActionHistory.revoke_window_check l aid i = decide (i + l.indexOf a < 5)
  | [], _, ha, _, _ => absurd ha (List.not_mem_nil a)
  | b :: t, i, ha, hid, nd => by
    rw [List.map_cons, List.nodup_cons] at nd
    by_cases hb : b.id = aid
    · have hab : a = b := by
        rcases List.mem_cons.mp ha with rfl | hat
        · rfl
        · have hmm : a.id ∈ t.map (fun x => x.id) := List.mem_map_of_mem (fun x => x.id) hat
          rw [hid, ← hb] at hmm
          exact absurd hmm nd.1
      subst hab
      simp [ActionHistory.revoke_window_check, hid, List.indexOf_cons_self]
    · have hab : a ≠ b := fun hcontra => hb (hcontra ▸ hid)
      have hat : a ∈ t := by
        rcases List.mem_cons.mp ha with rfl | hat
        · exact absurd rfl hab
        · exact hat
      have hbeq : (b.id == aid) = false := by simpa using hb
      rw [ActionHistory.revoke_window_check, hbeq]
      simp only [Bool.false_eq_true, if_false]
      rw [revoke_window_check_spec a aid t (i + 1) hat hid nd.2,
        List.indexOf_cons_ne _ (Ne.symm hab)]
      exact decide_eq_decide.mpr (by omega)

/-- C8: `can_revoke_action` returns false when the id is absent or the found
snapshot is already revoked; otherwise (with unique snapshot ids, as uuid4
guarantees in the source) it returns true exactly when the snapshot's index
in the most-recent-first list of non-revoked snapshots is below 5. -/
theorem C8_can_revoke (hist : List ActionSnapshot) (aid : Nat) :
    (ActionHistory.get_action_by_id hist aid = none →
      ActionHistory.can_revoke_action hist aid = false) ∧
    (∀ a, ActionHistory.get_action_by_id hist aid = some a → a.revoked = true →
      ActionHistory.can_revoke_action hist aid = false) ∧
    (∀ a, ActionHistory.get_action_by_id hist aid = some a → a.revoked = false →
      (hist.map (fun x => x.id)).Nodup →
      (ActionHistory.can_revoke_action hist aid = true ↔
        (ActionHistory.get_revokable_actions hist).indexOf a < 5)) := by
  refine ⟨?_, ?_, ?_⟩
  · intro h
    simp [ActionHistory.can_revoke_action, h]
  · intro a h hrev
    simp [ActionHistory.can_revoke_action, h, hrev]
  · intro a h hnrev nd
    obtain ⟨hid, hmem⟩ := find_id_spec hist aid a h
    have hmem2 : a ∈ ActionHistory.get_revokable_actions hist := by
      unfold ActionHistory.get_revokable_actions
      rw [List.mem_reverse, List.mem_filter]
      exact ⟨hmem, by simp [hnrev]⟩
    have nd2 : ((ActionHistory.get_revokable_actions hist).map (fun x => x.id)).Nodup := by
      unfold ActionHistory.get_revokable_actions
      rw [List.map_reverse, List.nodup_reverse]
      exact nd.sublist ((List.filter_sublist hist).map (fun x => x.id))
    have hcr : ActionHistory.can_revoke_action hist aid
        = ActionHistory.revoke_window_check (ActionHistory.get_revokable_actions hist) aid 0 := by
      simp [ActionHistory.can_revoke_action, h, hnrev]
    rw [hcr, revoke_window_check_spec a aid _ 0 hmem2 hid nd2]
    simp

/-- Witness for C8: in a six-entry non-revoked history, the oldest snapshot
(index 5 of the most-recent-first list) is not revokable. -/
theorem C8_can_revoke_witness : ActionHistory.can_revoke_action demo_hist6 1 = false := by
  have h := (C8_can_revoke demo_hist6 1).2.2 (demo_snap 1) (by decide) (by decide) (by decide)
  have hidx : ¬ ((ActionHistory.get_revokable_actions demo_hist6).indexOf (demo_snap 1) < 5) := by
    decide
  cases hcr : ActionHistory.can_revoke_action demo_hist6 1 with
  | false => rfl
  | true => exact absurd (h.mp hcr) hidx

theorem record_action_suffix (h : List ActionSnapshot) (maxH : Nat) (s : ActionSnapshot) :
    ActionHistory.record_action h maxH s <:+ h ++ [s] := by
  unfold ActionHistory.record_action
  dsimp only
  split
  · exact List.tail_suffix (h ++ [s])
  · exact List.suffix_rfl

theorem suffix_append_same {l₁ l₂ : List ActionSnapshot} (u : List ActionSnapshot)
    (h : l₁ <:+ l₂) : l₁ ++ u <:+ l₂ ++ u := by
  obtain ⟨p, rfl⟩ := h
  exact ⟨p, by rw [List.append_assoc]⟩

theorem record_foldl_suffix (maxH : Nat) :
    ∀ (l h : List ActionSnapshot),
      l.foldl (fun acc s => ActionHistory.record_action acc maxH s) h <:+ h ++ l
  | [], h => by simpa using List.suffix_rfl
  | s :: t, h => by
    have h1 := record_foldl_suffix maxH t (ActionHistory.record_action h maxH s)
    have h2 := suffix_append_same t (record_action_suffix h maxH s)
    rw [List.append_assoc, List.singleton_append] at h2
    exact h1.trans h2

theorem record_action_length (h : List ActionSnapshot) (maxH : Nat) (s : ActionSnapshot)
    (hl : h.length ≤ maxH) : (ActionHistory.record_action h maxH s).length ≤ maxH := by
  unfold ActionHistory.record_action
  dsimp only
  split
  · simp [List.length_tail]
    exact hl
  · next hcond => simp at hcond ⊢; omega

theorem record_foldl_length (maxH : Nat) :
    ∀ (l h : List ActionSnapshot), h.length ≤ maxH →
      (l.foldl (fun acc s => ActionHistory.record_action acc maxH s) h).length ≤ maxH
  | [], _, hl => hl
  | s :: t, h, hl => record_foldl_length maxH t _ (record_action_length h maxH s hl)

theorem suffix_drop_head {a : ActionSnapshot} {s l : List ActionSnapshot}
    (h : s <:+ a :: l) (hlen : s.length ≤ l.length) : s <:+ l := by
  obtain ⟨p, hp⟩ := h
  cases p with
  | nil =>
    rw [List.nil_append] at hp
    subst hp
    simp at hlen
  | cons b p2 =>
    rw [List.cons_append] at hp
    injection hp with hb hrest
    exact ⟨p2, hrest⟩

/-- C9: the Action History is a bounded FIFO — the default bound is 100, a
`record_action` call never grows the history beyond the bound, replaying any
call sequence from an empty history stays within the bound, and after
recording `max_history + 1` snapshots the first one's id is no longer found
by `get_action_by_id`. -/
theorem C9_bounded_fifo :
    WorklogManager.initial_manager.max_history = 100 ∧
    (∀ (h : List ActionSnapshot) (maxH : Nat) (s : ActionSnapshot),
      h.length ≤ maxH → (ActionHistory.record_action h maxH s).length ≤ maxH) ∧
    (∀ (maxH : Nat) (l : List ActionSnapshot), (record_all maxH l).length ≤ maxH) ∧
    (∀ (maxH : Nat) (a : ActionSnapshot) (l : List ActionSnapshot),
      l.length = maxH → a.id ∉ l.map (fun x => x.id) →
      ActionHistory.get_action_by_id (record_all maxH (a :: l)) a.id = none) := by
  refine ⟨rfl, record_action_length,
    fun maxH l => record_foldl_length maxH l [] (by simp), ?_⟩
  intro maxH a l hlen hnot
  have hsuf : record_all maxH (a :: l) <:+ a :: l := by
    simpa using record_foldl_suffix maxH (a :: l) []
  have hlen2 : (record_all maxH (a :: l)).length ≤ maxH :=
    record_foldl_length maxH (a :: l) [] (by simp)
  have hsuf2 : record_all maxH (a :: l) <:+ l := suffix_drop_head hsuf (by omega)
  unfold ActionHistory.get_action_by_id
  rw [List.find?_eq_none]
  intro x hx
  have hxl : x ∈ l := hsuf2.subset hx
  simp only [beq_eq_false_iff_ne, ne_eq, Bool.not_eq_true]
  intro hxp
  exact hnot (hxp ▸ List.mem_map_of_mem (fun y => y.id) hxl)

/-- Witness for C9 with bound 2: recording a third snapshot keeps the length
at 2, and after recording three snapshots the first one's id is gone. -/
theorem C9_bounded_fifo_witness :
    (ActionHistory.record_action [demo_snap 1, demo_snap 2] 2 (demo_snap 3)).length ≤ 2 ∧
    ActionHistory.get_action_by_id
      (record_all 2 (demo_snap 1 :: [demo_snap 2, demo_snap 3])) (demo_snap 1).id = none :=
  ⟨C9_bounded_fifo.2.1 [demo_snap 1, demo_snap 2] 2 (demo_snap 3) (by decide),
   C9_bounded_fifo.2.2.2 2 (demo_snap 1) [demo_snap 2, demo_snap 3] (by decide) (by decide)⟩

theorem get_session_actions_revoke_eq (rows : List ActionLog) (sid aid : Nat) :
    Database.get_session_actions (Database.revoke_action rows aid) sid
      = Database.get_session_actions (rows.filter (fun r => !(r.id == aid))) sid := by
  induction rows with
  | nil => rfl
  | cons r rest ih =>
    by_cases hid : r.id = aid
    · simp [Database.revoke_action, Database.get_session_actions, List.filter_cons, hid] at ih ⊢
      exact ih
    · simp [Database.revoke_action, Database.get_session_actions, List.filter_cons, hid] at ih ⊢
      split <;> simp_all

/-- C10: `get_session_actions` — the read every recomputation goes through —
returns only rows whose revoked flag is false, and flagging a row revoked via
`Database.revoke_action` makes `get_current_calculations` agree with deleting
that row outright: its timestamps contribute nothing on the next
recomputation. -/
theorem C10_revoked_rows_excluded :
    (∀ (rows : List ActionLog) (sid : Nat) (r : ActionLog),
      r ∈ Database.get_session_actions rows sid → r.revoked = false) ∧
    (∀ (rows : List ActionLog) (sid aid : Nat),
      Database.get_session_actions (Database.revoke_action rows aid) sid
        = Database.get_session_actions (rows.filter (fun r => !(r.id == aid))) sid) ∧
    (∀ (m : Manager) (aid : Nat) (now : Int),
      WorklogManager.get_current_calculations
          { m with db_actions := Database.revoke_action m.db_actions aid } now
        = WorklogManager.get_current_calculations
          { m with db_actions := m.db_actions.filter (fun r => !(r.id == aid)) } now) := by
  refine ⟨?_, get_session_actions_revoke_eq, ?_⟩
  · intro rows sid r hr
    have hp := List.of_mem_filter hr
    simp at hp
    exact hp.2
  · intro m aid now
    unfold WorklogManager.get_current_calculations
    dsimp only
    rw [get_session_actions_revoke_eq]

/-- Witness for C10: a non-revoked row observed through the filtered read. -/
theorem C10_revoked_rows_excluded_witness :
    ({ id := 1, session_id := 1, action_type := ActionType.start_day } : ActionLog).revoked
      = false :=
  C10_revoked_rows_excluded.1
    [{ id := 1, session_id := 1, action_type := ActionType.start_day }] 1
    { id := 1, session_id := 1, action_type := ActionType.start_day } (by decide)

end Worklog
